import Mathlib

/-!
Shallow embedding of `build_cv.py`: a single-pass generator that maps a
hard-coded CV content record to an ordered list of layout blocks (the
ReportLab "story"), which the layout engine paginates and serializes.
We embed the data model, the block type, and the assembly performed by
`build_pdf`, and prove the spec's testable properties about them.
-/

set_option autoImplicit false

namespace BuildCV

/-- One experience entry: `{"company":…, "role":…, "dates":…, "bullets":[…]}`.
`bullets` is read with `job.get("bullets", [])`, so a missing key behaves as `[]`. -/
structure Job where
  company : String
  role : String
  dates : String
  bullets : List String
deriving Repr, DecidableEq

/-- The CV Content record (`DATA` in `build_cv.py`).  Fields read with
`DATA[...]` (KeyError on absence) are plain values; fields read with
`DATA.get(...)` are `Option`s, where `none` models a missing key and
`some ""` an empty (falsy) string.  The `links` mapping is an ordered
association list (Python dicts preserve insertion order). -/
structure CVData where
  name : String
  title : String
  location : Option String
  email : Option String
  phone : Option String
  summary : Option String
  experience : List Job
  tech : String
  providers : String
  education : List String
  languages : String
  links : List (String × String)
deriving Repr, DecidableEq

/-- Python truthiness of an optional string: absent keys and empty strings
are falsy, everything else truthy (`if DATA.get("email"): ...`). -/
def truthy : Option String → Bool
  | none => false
  | some s => !s.isEmpty

/-- Modelled from the spec: the QR encoder collaborator (§4.1) is the
third-party `qrcode` library, not part of this repository.  Its contract is
"given a URL string …, returns a raster image encoding that URL"; we model
the raster as a record carrying the encoded payload. -/
structure QRImage where
  payload : String
deriving Repr, DecidableEq

/-- `make_qr(url)` from `build_cv.py`: feeds `url` to the QR encoder
(`qr.add_data(url)`) and returns the rendered image.  The error-correction
and box-size parameters affect only the raster geometry, not the payload. -/
def make_qr (url : String) : QRImage := { payload := url }

/-- Modelled from the spec: decoding a QR image recovers the URL it encodes
("The QR image, when decoded, yields exactly the configured landing-page
URL string", §8). -/
def QRImage.decode (q : QRImage) : String := q.payload

/-- Source of an embedded image: the in-memory QR raster or a file path. -/
inductive ImageSrc where
  | qr (img : QRImage)
  | file (path : String)
deriving Repr, DecidableEq

/-- A value in a `TableStyle` command: a keyword (e.g. `'TOP'`) or a number. -/
inductive TSVal where
  | str (s : String)
  | num (n : Int)
deriving Repr, DecidableEq

/-- One `TableStyle` command `(cmd, (sc, sr), (ec, er), value)`; negative
coordinates count from the end, as in ReportLab. -/
structure TSCmd where
  cmd : String
  sc : Int
  sr : Int
  ec : Int
  er : Int
  value : TSVal
deriving Repr, DecidableEq

/-- The abstract content blocks handed to the layout engine: paragraphs with
a named style, spacers, images with physical dimensions (mm), tables whose
rows hold one flowable per cell (as in this program), and `KeepInFrame`
overflow protection around a stack of flowables. -/
inductive Flowable where
  | paragraph (text : String) (style : String)
  | spacer (w : Nat) (hMM : Nat)
  | image (src : ImageSrc) (wMM : Nat) (hMM : Nat)
  | table (rows : List (List Flowable)) (colWidths : List (Option Nat)) (style : List TSCmd)
  | keepInFrame (maxW : Nat) (maxH : Nat) (content : List Flowable) (hAlign : String)
deriving Repr

/-! ## Configuration constants (`CONFIG` section of `build_cv.py`) -/

def LANDING_URL : String := "https://apschram.github.io/curriculum-vitae/"
def PDF_URL : String := "https://apschram.github.io/curriculum-vitae/Alexander_Schram_CV.pdf"
def LINKEDIN_URL : String := "https://www.linkedin.com/in/alexander-schram-17ab6265/"
def GITHUB_URL : String := "https://github.com/apschram/curriculum-vitae"
def OUTPUT_PDF : String := "Alexander_Schram_CV.pdf"

/-- `HEADSHOT_PATH = None` in the source. -/
def HEADSHOT_PATH : Option String := none

/-! ## The concrete content record (`DATA` in `build_cv.py`) -/

def DATA : CVData where
  name := "Alexander Pieter Schram"
  title := "Sports Analytics · Tracking & Modeling"
  location := some "Amsterdam, NL"
  email := some "apschram@gmail.com"
  phone := some "+31 6 52 36 73 57"
  summary := some ("Sports data leader focused on tracking analytics, model design, and delivery. Built end-to-end pipelines and coach-facing tools; values reproducibility and measurable impact.")
  experience :=
    [ { company := "PFF", role := "Sr. Manager Team Services & Analysis", dates := "2021–present",
        bullets :=
          [ "Led analytics delivery for pro clubs across recruitment and performance.",
            "Built tracking×event fusion workflows and physical metrics reporting.",
            "Improved comms through concise visuals and field-relevant language." ] },
      { company := "FC Cincinnati", role := "Director of Analytics & Strategy", dates := "2019–2021",
        bullets :=
          [ "Built the analytics function across player evaluation and match analysis.",
            "Delivered coach-facing products and recruitment decision support." ] },
      { company := "remiqz", role := "Manager Data Science & Lead Developer", dates := "2017–2019",
        bullets := [ "Led data science projects and productized analytics pipelines." ] },
      { company := "Hypercube", role := "Consultant", dates := "2014–2017",
        bullets := [ "Delivered modeling and analysis for sports/business problems." ] },
      { company := "Veneficus", role := "Data Intern", dates := "2013",
        bullets := [ "Supported data preparation and early-stage modeling." ] },
      { company := "University of Amsterdam", role := "Research Assistant", dates := "2011–2013",
        bullets := [ "Quantitative research support and analysis." ] } ]
  tech := "Python (pandas, scikit-learn, xgboost), SQL, R, Matplotlib, Shiny, Kalman filters, ETL, model validation/MAER, experiment design"
  providers := "Event: PFF, StatsBomb, Wyscout, Opta, InStat · Tracking: Second Spectrum, ChyronHego, SkillCorner, Sportlogiq · GPS: STATSports, Catapult"
  education :=
    [ "MSc Econometrics: Free Track — University of Amsterdam (2014)",
      "BSc Econometrics & Operations Research — University of Amsterdam (2013)" ]
  languages := "Dutch (native), English (C2)"
  links := [("PDF", PDF_URL), ("LinkedIn", LINKEDIN_URL), ("GitHub", GITHUB_URL)]

/-! ## Footer callback (`footer` in `build_cv.py`).
The callback draws two strings per page; the generation date is the only
run-dependent input, passed here explicitly. -/

/-- The left footer string `f"Generated with Python — v{today}"`. -/
def footerLeft (today : String) : String := "Generated with Python — v" ++ today

/-- The right footer string `"© Alexander Schram"`. -/
def footerRight : String := "© Alexander Schram"

/-! ## Header assembly (`build_pdf`, lines 174–216) -/

/-- The email contact entry `f'<link href="mailto:{e}">{e}</link>'`. -/
def mailtoSpan (e : String) : String :=
  "<link href=\"mailto:" ++ e ++ "\">" ++ e ++ "</link>"

/-- A link entry `f'<link href="{url}">{label}</link>'`. -/
def linkSpan (label url : String) : String :=
  "<link href=\"" ++ url ++ "\">" ++ label ++ "</link>"

/-- The `for label, url in DATA.get("links", {}).items()` loop, accumulating
into `parts`; an entry is appended only when `url` is truthy. -/
def linkLoop : List (String × String) → List String → List String
  | [], parts => parts
  | (label, url) :: rest, parts =>
      linkLoop rest (if !url.isEmpty then parts ++ [linkSpan label url] else parts)

/-- The contact-line entries (`parts` in `build_pdf`): one entry per truthy
field among email / phone / location, then one per truthy link URL. -/
def contactParts (d : CVData) : List String :=
  let parts : List String := []
  let parts := if truthy d.email then parts ++ [mailtoSpan (d.email.getD "")] else parts
  let parts := if truthy d.phone then parts ++ [d.phone.getD ""] else parts
  let parts := if truthy d.location then parts ++ [d.location.getD ""] else parts
  linkLoop d.links parts

/-- `contact_p = Paragraph(" · ".join(parts), styles["BodyMain"])`. -/
def contact_p (d : CVData) : Flowable :=
  .paragraph (String.intercalate " · " (contactParts d)) "BodyMain"

/-- `left_stack = [name_p, title_p, Spacer(1, 2*mm), contact_p]`. -/
def left_stack (d : CVData) : List Flowable :=
  [ .paragraph d.name "NameLine", .paragraph d.title "SubLine",
    .spacer 1 2, contact_p d ]

/-- `left_flow = KeepInFrame(0, 0, left_stack, hAlign="LEFT")`. -/
def left_flow (d : CVData) : Flowable :=
  .keepInFrame 0 0 (left_stack d) "LEFT"

/-- `qr_img = Image(make_qr(LANDING_URL), width=28*mm, height=28*mm)`. -/
def qr_img : Flowable := .image (ImageSrc.qr (make_qr LANDING_URL)) 28 28

/-- `right_cells = [[qr_img]]`, extended with a spacer row and a headshot
image row when `HEADSHOT_PATH` is truthy and the file exists (`fe` models
`os.path.exists`). -/
def rightCells (h : Option String) (fe : String → Bool) : List (List Flowable) :=
  let cells : List (List Flowable) := [[qr_img]]
  if truthy h && fe (h.getD "") then
    cells ++ [[.spacer 1 2], [.image (ImageSrc.file (h.getD "")) 28 28]]
  else cells

/-- The style applied to `right_tbl`. -/
def rightTblStyle : List TSCmd :=
  [ ⟨"VALIGN", 0, 0, -1, -1, .str "TOP"⟩,
    ⟨"ALIGN", 0, 0, -1, -1, .str "RIGHT"⟩,
    ⟨"LEFTPADDING", 0, 0, -1, -1, .num 0⟩,
    ⟨"RIGHTPADDING", 0, 0, -1, -1, .num 0⟩,
    ⟨"TOPPADDING", 0, 0, -1, -1, .num 0⟩,
    ⟨"BOTTOMPADDING", 0, 0, -1, -1, .num 0⟩ ]

/-- `right_tbl = Table(right_cells, colWidths=[30*mm])` with its style. -/
def right_tbl (h : Option String) (fe : String → Bool) : Flowable :=
  .table (rightCells h fe) [some 30] rightTblStyle

/-- The style applied to `header_row`. -/
def headerRowStyle : List TSCmd :=
  [ ⟨"VALIGN", 0, 0, -1, -1, .str "TOP"⟩,
    ⟨"LEFTPADDING", 0, 0, -1, -1, .num 0⟩,
    ⟨"RIGHTPADDING", 0, 0, -1, -1, .num 0⟩,
    ⟨"BOTTOMPADDING", 0, 0, -1, -1, .num 0⟩ ]

/-- `header_row = Table([[left_flow, right_tbl]], colWidths=[None, 30*mm])`. -/
def header_row (d : CVData) (h : Option String) (fe : String → Bool) : Flowable :=
  .table [[left_flow d, right_tbl h fe]] [none, some 30] headerRowStyle

/-! ## Summary and experience sections (`build_pdf`, lines 218–233) -/

/-- The blocks appended by the `if DATA.get("summary"):` branch. -/
def summaryBlocks (d : CVData) : List Flowable :=
  if truthy d.summary then
    [ .paragraph "Summary" "H2Accent",
      .paragraph (d.summary.getD "") "BodyMain",
      .spacer 1 3 ]
  else []

/-- The heading line `f"<b>{company} — {role} ({dates})</b>"`. -/
def jobHead (j : Job) : String :=
  "<b>" ++ j.company ++ " — " ++ j.role ++ " (" ++ j.dates ++ ")</b>"

/-- The bullet paragraph `Paragraph(f"• {b}", styles["BulletItem"])`. -/
def bulletPara (b : String) : Flowable := .paragraph ("• " ++ b) "BulletItem"

/-- The `for job in DATA["experience"]:` loop, appending to the running
`story`: one heading paragraph, the bullet paragraphs, then a spacer. -/
def expLoop : List Job → List Flowable → List Flowable
  | [], story => story
  | job :: rest, story =>
      expLoop rest
        (((story ++ [.paragraph (jobHead job) "BodyMain"])
            ++ job.bullets.map bulletPara)
          ++ [.spacer 1 1])

/-- One experience entry's block group, as the loop body emits it. -/
def jobGroup (j : Job) : List Flowable :=
  .paragraph (jobHead j) "BodyMain" :: (j.bullets.map bulletPara ++ [.spacer 1 1])

/-! ## Two-column block and tail (`build_pdf`, lines 235–264) -/

/-- `left_col`: Technical heading + body, spacer, Education heading + one
paragraph per education item. -/
def left_col (d : CVData) : List Flowable :=
  [ .paragraph "Technical" "H2Accent",
    .paragraph d.tech "BodyMain",
    .spacer 1 2,
    .paragraph "Education" "H2Accent" ]
  ++ d.education.map (fun item => .paragraph item "BodyMain")

/-- `right_col`: Languages heading + body, spacer, Data Providers heading + body. -/
def right_col (d : CVData) : List Flowable :=
  [ .paragraph "Languages" "H2Accent",
    .paragraph d.languages "BodyMain",
    .spacer 1 2,
    .paragraph "Data Providers" "H2Accent",
    .paragraph d.providers "BodyMain" ]

/-- `left_kif = KeepInFrame(0, 0, left_col, hAlign="LEFT")`. -/
def left_kif (d : CVData) : Flowable := .keepInFrame 0 0 (left_col d) "LEFT"

/-- `right_kif = KeepInFrame(0, 0, right_col, hAlign="LEFT")`. -/
def right_kif (d : CVData) : Flowable := .keepInFrame 0 0 (right_col d) "LEFT"

/-- The style applied to `two_col`. -/
def twoColStyle : List TSCmd :=
  [ ⟨"VALIGN", 0, 0, -1, -1, .str "TOP"⟩,
    ⟨"LEFTPADDING", 0, 0, -1, -1, .num 0⟩,
    ⟨"RIGHTPADDING", 0, 0, -1, -1, .num 12⟩,
    ⟨"TOPPADDING", 0, 0, -1, -1, .num 0⟩,
    ⟨"BOTTOMPADDING", 0, 0, -1, -1, .num 0⟩ ]

/-- `two_col = Table([[left_kif, right_kif]], colWidths=[None, None])`. -/
def two_col (d : CVData) : Flowable :=
  .table [[left_kif d, right_kif d]] [none, none] twoColStyle

/-- The closing small note paragraph. -/
def noteText : String :=
  "Generated with Python — links above for PDF · GitHub · LinkedIn."

/-! ## The full story (`build_pdf`, lines 172–264) -/

/-- The ordered block list `story` handed to `doc.build(story)`, assembled
by the same sequence of appends as `build_pdf` (`h` is `HEADSHOT_PATH`,
`fe` models `os.path.exists`). -/
def build_story (d : CVData) (h : Option String) (fe : String → Bool) : List Flowable :=
  let story : List Flowable := []
  let story := story ++ [header_row d h fe, .spacer 1 6]
  let story := story ++ summaryBlocks d
  let story := story ++ [.paragraph "Experience" "H2Accent"]
  let story := expLoop d.experience story
  let story := story ++ [.spacer 1 4, two_col d, .spacer 1 6]
  let story := story ++ [.paragraph noteText "SmallNote"]
  story

/-- Everything one run emits: the block list, plus the two footer strings
drawn on each page by the `footer` callback.  `today` is the value of
`date.today().strftime("%Y.%m.%d")` observed during the run — the only
run-dependent input. -/
structure RunOutput where
  story : List Flowable
  fLeft : String
  fRight : String
deriving Repr

/-- One generation run with explicit run-dependent date. -/
def fullRun (d : CVData) (h : Option String) (fe : String → Bool) (today : String) : RunOutput :=
  { story := build_story d h fe, fLeft := footerLeft today, fRight := footerRight }

/-! ## State-passing view of the run.
`build_pdf` only ever reads the record; each phase below threads the record
state through explicitly, returning the (possibly updated) record together
with the blocks it appends. -/

/-- Header phase: reads name, title, contacts, links, headshot config. -/
def headerPhase (h : Option String) (fe : String → Bool) (d : CVData) : CVData × List Flowable :=
  (d, [header_row d h fe, .spacer 1 6])

/-- Summary phase: reads the summary field. -/
def summaryPhase (d : CVData) : CVData × List Flowable :=
  (d, summaryBlocks d)

/-- Experience phase: reads the experience list. -/
def experiencePhase (d : CVData) : CVData × List Flowable :=
  (d, expLoop d.experience [.paragraph "Experience" "H2Accent"])

/-- Two-column phase: reads tech, education, languages, providers. -/
def twoColPhase (d : CVData) : CVData × List Flowable :=
  (d, [.spacer 1 4, two_col d, .spacer 1 6])

/-- Closing note phase: reads nothing from the record. -/
def notePhase (d : CVData) : CVData × List Flowable :=
  (d, [.paragraph noteText "SmallNote"])

/-- The whole run as explicit state passing: the record threads through all
five phases, and the emitted blocks are concatenated in phase order. -/
def build_run (d : CVData) (h : Option String) (fe : String → Bool) : CVData × List Flowable :=
  let s1 := headerPhase h fe d
  let s2 := summaryPhase s1.1
  let s3 := experiencePhase s2.1
  let s4 := twoColPhase s3.1
  let s5 := notePhase s4.1
  (s5.1, s1.2 ++ s2.2 ++ s3.2 ++ s4.2 ++ s5.2)

/-! ## Block classifiers and the table-style interpreter -/

/-- Is this block an experience heading (a `BodyMain` paragraph, within the
experience section)? -/
def isHeadPara : Flowable → Bool
  | .paragraph _ st => st == "BodyMain"
  | _ => false

/-- Is this block a bullet paragraph (`BulletItem` style)? -/
def isBulletPara : Flowable → Bool
  | .paragraph _ st => st == "BulletItem"
  | _ => false

/-- Is this block an image? -/
def isImageBlock : Flowable → Bool
  | .image _ _ _ => true
  | _ => false

/-- The images of a table's cells, in top-to-bottom (row-major) order. -/
def imagesOf (rows : List (List Flowable)) : List Flowable :=
  rows.flatten.filter isImageBlock

/-- Resolve a possibly negative ReportLab coordinate against a dimension
(`-1` means the last column/row). -/
def resolveIdx (i : Int) (n : Nat) : Int :=
  if i < 0 then (n : Int) + i else i

/-- Does a `TableStyle` command's cell range cover cell `(col, row)` of an
`nCols × nRows` table? -/
def cmdCovers (c : TSCmd) (nCols nRows col row : Nat) : Bool :=
  decide (resolveIdx c.sc nCols ≤ (col : Int)) && decide ((col : Int) ≤ resolveIdx c.ec nCols)
    && decide (resolveIdx c.sr nRows ≤ (row : Int)) && decide ((row : Int) ≤ resolveIdx c.er nRows)

/-- The effective value of command `name` at cell `(col, row)`: ReportLab
applies commands in order, so the last covering command wins. -/
def lastCmd (cmds : List TSCmd) (name : String) (nCols nRows col row : Nat) : Option TSVal :=
  ((cmds.filter (fun c => c.cmd == name && cmdCovers c nCols nRows col row)).getLast?).map TSCmd.value

/-- A record with every optional value absent and every list empty. -/
def emptyCV : CVData where
  name := ""
  title := ""
  location := none
  email := none
  phone := none
  summary := none
  experience := []
  tech := ""
  providers := ""
  education := []
  languages := ""
  links := []

/-! ## Helper lemmas -/

/-- The experience loop appends the entries' block groups, in input order,
to whatever story it was handed. -/
theorem expLoop_eq (jobs : List Job) (s : List Flowable) :
    expLoop jobs s = s ++ jobs.flatMap jobGroup := by
  induction jobs generalizing s with
  | nil => simp [expLoop]
  | cons j rest ih =>
    simp [expLoop, ih, jobGroup, List.append_assoc]

/-- The link loop appends exactly the truthy-URL links, in insertion order,
rendered as link spans. -/
theorem linkLoop_eq (links : List (String × String)) (parts : List String) :
    linkLoop links parts =
      parts ++ (links.filter (fun lu => !lu.2.isEmpty)).map (fun lu => linkSpan lu.1 lu.2) := by
  induction links generalizing parts with
  | nil => simp [linkLoop]
  | cons lu rest ih =>
    cases lu with
    | mk label url =>
      by_cases hu : url.isEmpty = true
      · simp [linkLoop, ih, hu, List.filter_cons]
      · simp only [Bool.not_eq_true] at hu
        simp [linkLoop, ih, hu, List.filter_cons, List.append_assoc]

/-- Normal form of the assembled story: header, optional summary blocks,
experience heading and entry groups, two-column block, closing note. -/
theorem build_story_eq (d : CVData) (h : Option String) (fe : String → Bool) :
    build_story d h fe =
      [header_row d h fe, .spacer 1 6]
        ++ summaryBlocks d
        ++ (Flowable.paragraph "Experience" "H2Accent" :: d.experience.flatMap jobGroup)
        ++ [.spacer 1 4, two_col d, .spacer 1 6, .paragraph noteText "SmallNote"] := by
  simp [build_story, expLoop_eq, List.append_assoc]

/-- A heading line is never the empty string (it starts with `<b>`). -/
theorem jobHead_ne_empty (j : Job) : jobHead j ≠ "" := by
  intro hcontra
  have hlen := congrArg String.length hcontra
  simp only [jobHead, String.length_append] at hlen
  have e1 : ("<b>" : String).length = 3 := rfl
  have e2 : ("" : String).length = 0 := rfl
  rw [e1, e2] at hlen
  omega

/-- No block of an experience entry group carries the `H2Accent` style. -/
theorem h2_notin_expBody (jobs : List Job) (t : String) :
    Flowable.paragraph t "H2Accent" ∉ jobs.flatMap jobGroup := by
  intro hmem
  rcases List.mem_flatMap.mp hmem with ⟨j, _, hj⟩
  simp [jobGroup, bulletPara] at hj

/-- No experience block is an empty-text `BodyMain` paragraph: the headings
start with `<b>` and the bullets carry the `BulletItem` style. -/
theorem emptyBody_notin_expBody (jobs : List Job) :
    Flowable.paragraph "" "BodyMain" ∉ jobs.flatMap jobGroup := by
  intro hmem
  rcases List.mem_flatMap.mp hmem with ⟨j, _, hj⟩
  simp [jobGroup, bulletPara] at hj
  exact jobHead_ne_empty j hj.symm

/-- With a falsy summary field, no summary block is emitted. -/
theorem summaryBlocks_of_falsy (d : CVData) (hs : truthy d.summary = false) :
    summaryBlocks d = [] := by
  simp [summaryBlocks, hs]

/-- A falsy summary field reads back as the empty string. -/
theorem summary_getD_of_falsy (d : CVData) (hs : truthy d.summary = false) :
    d.summary.getD "" = "" := by
  cases hsum : d.summary with
  | none => rfl
  | some s =>
    rw [hsum] at hs
    simp only [truthy, Bool.not_eq_false'] at hs
    simpa [String.isEmpty_iff] using hs

/-- With a falsy summary, neither the `Summary` heading nor the summary
body paragraph occurs anywhere in the story. -/
theorem summary_absent_of_falsy (d : CVData) (h : Option String) (fe : String → Bool)
    (hs : truthy d.summary = false) :
    Flowable.paragraph "Summary" "H2Accent" ∉ build_story d h fe
      ∧ Flowable.paragraph (d.summary.getD "") "BodyMain" ∉ build_story d h fe := by
  rw [build_story_eq, summaryBlocks_of_falsy d hs, summary_getD_of_falsy d hs]
  constructor
  · intro hmem
    simp [header_row, two_col] at hmem
    exact h2_notin_expBody d.experience "Summary" (List.mem_flatMap.mpr hmem)
  · intro hmem
    simp [header_row, two_col] at hmem
    exact emptyBody_notin_expBody d.experience (List.mem_flatMap.mpr hmem)

/-- Bullet paragraphs never pass the heading classifier. -/
theorem filter_head_bullets (bs : List String) :
    (bs.map bulletPara).filter isHeadPara = [] := by
  induction bs with
  | nil => rfl
  | cons b rest ih => simp [bulletPara, isHeadPara, ih]

/-- Bullet paragraphs all pass the bullet classifier. -/
theorem filter_bullet_bullets (bs : List String) :
    (bs.map bulletPara).filter isBulletPara = bs.map bulletPara := by
  induction bs with
  | nil => rfl
  | cons b rest ih => simp [bulletPara, isBulletPara, ih]

/-! ## Claims -/

/-- C1: for a fixed record, headshot configuration and filesystem, two runs
produce the same block list and the same right footer string; the left
footer string is determined by (and determines) the generation date, which
is therefore the only run-dependent part of the output. -/
theorem c1_deterministic_modulo_footer_date (d : CVData) (h : Option String)
    (fe : String → Bool) (t1 t2 : String) :
    (fullRun d h fe t1).story = (fullRun d h fe t2).story
    ∧ (fullRun d h fe t1).fRight = (fullRun d h fe t2).fRight
    ∧ ((fullRun d h fe t1).fLeft = (fullRun d h fe t2).fLeft ↔ t1 = t2)
    ∧ (fullRun d h fe t1).fLeft = "Generated with Python — v" ++ t1 := by
  refine ⟨rfl, rfl, ⟨?_, ?_⟩, rfl⟩
  · intro hl
    have hl2 : footerLeft t1 = footerLeft t2 := hl
    simp only [footerLeft] at hl2
    have h2 := congrArg String.data hl2
    rw [String.data_append, String.data_append] at h2
    exact String.ext (List.append_cancel_left h2)
  · intro he
    rw [he]

/-- C2: the experience loop appends, for each entry in input order, exactly
one heading block followed by that entry's bullet blocks in input order
(plus a trailing spacer): the loop is the concatenation of per-entry
groups, the `BodyMain` blocks of the section are exactly the headings (one
per entry, in order), and the `BulletItem` blocks are exactly the bullets
(grouped by entry, in order). -/
theorem c2_experience_groups (jobs : List Job) :
    (∀ s, expLoop jobs s = s ++ jobs.flatMap jobGroup)
    ∧ (∀ j, jobGroup j =
        Flowable.paragraph (jobHead j) "BodyMain"
          :: (j.bullets.map bulletPara ++ [Flowable.spacer 1 1]))
    ∧ (jobs.flatMap jobGroup).filter isHeadPara
        = jobs.map (fun j => Flowable.paragraph (jobHead j) "BodyMain")
    ∧ (jobs.flatMap jobGroup).filter isBulletPara
        = jobs.flatMap (fun j => j.bullets.map bulletPara) := by
  refine ⟨expLoop_eq jobs, fun _ => rfl, ?_, ?_⟩
  · induction jobs with
    | nil => rfl
    | cons j rest ih =>
      simp [jobGroup, isHeadPara, filter_head_bullets, ih, List.filter_append, List.filter_cons]
  · induction jobs with
    | nil => rfl
    | cons j rest ih =>
      simp [jobGroup, isBulletPara, filter_bullet_bullets, ih, List.filter_append, List.filter_cons]

/-- C3 counterexample: a record whose experience list is empty still gets
the `Experience` section heading in its block list, so not every optional
section is skipped when its source is empty. -/
theorem c3_counterexample :
    emptyCV.experience = []
    ∧ Flowable.paragraph "Experience" "H2Accent" ∈ build_story emptyCV none (fun _ => false) := by
  refine ⟨rfl, ?_⟩
  rw [build_story_eq]
  simp

/-- C3 amended: only the summary section is conditionally emitted — when
the summary is empty or absent, neither its heading nor its body appears —
while the `Experience` heading is always in the block list and the
Technical / Education / Languages / Data Providers headings are always in
their column stacks, regardless of their sources. -/
theorem c3_amended_only_summary_conditional (d : CVData) (h : Option String) (fe : String → Bool) :
    (truthy d.summary = false →
      Flowable.paragraph "Summary" "H2Accent" ∉ build_story d h fe
        ∧ Flowable.paragraph (d.summary.getD "") "BodyMain" ∉ build_story d h fe)
    ∧ Flowable.paragraph "Experience" "H2Accent" ∈ build_story d h fe
    ∧ Flowable.paragraph "Technical" "H2Accent" ∈ left_col d
    ∧ Flowable.paragraph "Education" "H2Accent" ∈ left_col d
    ∧ Flowable.paragraph "Languages" "H2Accent" ∈ right_col d
    ∧ Flowable.paragraph "Data Providers" "H2Accent" ∈ right_col d := by
  refine ⟨fun hs => summary_absent_of_falsy d h fe hs, ?_, ?_, ?_, ?_, ?_⟩
  · rw [build_story_eq]; simp
  · simp [left_col]
  · simp [left_col]
  · simp [right_col]
  · simp [right_col]

/-- C3 amended, instantiated: on the all-empty record the summary heading
is indeed absent while the `Experience` heading is still present. -/
theorem c3_amended_witness :
    truthy emptyCV.summary = false
    ∧ Flowable.paragraph "Summary" "H2Accent" ∉ build_story emptyCV none (fun _ => false)
    ∧ Flowable.paragraph "Experience" "H2Accent" ∈ build_story emptyCV none (fun _ => false) := by
  refine ⟨rfl, ?_, ?_⟩
  · exact ((c3_amended_only_summary_conditional emptyCV none (fun _ => false)).1 rfl).1
  · exact (c3_amended_only_summary_conditional emptyCV none (fun _ => false)).2.1

/-- C4: the contact line's entries are exactly one entry per truthy field
among email, phone, location (in that order) plus one link span per link
with a truthy URL, in the mapping's insertion order; the entry count is the
sum of the present-field count and the truthy-link count. -/
theorem c4_contact_entries (d : CVData) :
    contactParts d =
      (if truthy d.email then [mailtoSpan (d.email.getD "")] else [])
        ++ (if truthy d.phone then [d.phone.getD ""] else [])
        ++ (if truthy d.location then [d.location.getD ""] else [])
        ++ (d.links.filter (fun lu => !lu.2.isEmpty)).map (fun lu => linkSpan lu.1 lu.2)
    ∧ (contactParts d).length =
      (if truthy d.email then 1 else 0) + (if truthy d.phone then 1 else 0)
        + (if truthy d.location then 1 else 0)
        + (d.links.filter (fun lu => !lu.2.isEmpty)).length := by
  cases he : truthy d.email <;> cases hp : truthy d.phone <;> cases hl : truthy d.location <;>
    simp [contactParts, linkLoop_eq, he, hp, hl] <;> omega

/-- C5: when the summary field is empty or absent, neither the `Summary`
section heading paragraph nor the summary body paragraph occurs in the
generated block list. -/
theorem c5_empty_summary_no_blocks (d : CVData) (h : Option String) (fe : String → Bool)
    (hs : truthy d.summary = false) :
    Flowable.paragraph "Summary" "H2Accent" ∉ build_story d h fe
    ∧ Flowable.paragraph (d.summary.getD "") "BodyMain" ∉ build_story d h fe :=
  summary_absent_of_falsy d h fe hs

/-- C5, instantiated on the all-empty record. -/
theorem c5_witness :
    truthy emptyCV.summary = false
    ∧ Flowable.paragraph "Summary" "H2Accent" ∉ build_story emptyCV none (fun _ => false) :=
  ⟨rfl, (c5_empty_summary_no_blocks emptyCV none (fun _ => false) rfl).1⟩

/-- C6: with no (or a non-existing) headshot configured, the right-hand
header stack holds exactly one image, the QR code; with an existing
headshot it holds exactly two images, the QR code above the headshot. -/
theorem c6_right_stack_images (h : Option String) (fe : String → Bool) :
    imagesOf (rightCells h fe) =
      (if truthy h && fe (h.getD "")
        then [qr_img, Flowable.image (ImageSrc.file (h.getD "")) 28 28]
        else [qr_img])
    ∧ ((truthy h && fe (h.getD "")) = false → (imagesOf (rightCells h fe)).length = 1)
    ∧ ((truthy h && fe (h.getD "")) = true → (imagesOf (rightCells h fe)).length = 2) := by
  cases hc : truthy h && fe (h.getD "") <;>
    simp [imagesOf, rightCells, hc, qr_img, isImageBlock]

/-- C6, instantiated: one image with no headshot configured, two images
with an existing headshot file. -/
theorem c6_witness :
    (imagesOf (rightCells none (fun _ => false))).length = 1
    ∧ (imagesOf (rightCells (some "AS.png") (fun _ => true))).length = 2 :=
  ⟨(c6_right_stack_images none (fun _ => false)).2.1 rfl,
   (c6_right_stack_images (some "AS.png") (fun _ => true)).2.2 (by decide)⟩

/-- C7: the payload handed to the QR encoder for the header image is
exactly the landing-page URL, so decoding the QR image yields that URL;
and that QR image is the first (topmost) cell of the right header stack
whatever the headshot configuration. -/
theorem c7_qr_decodes_to_landing_url :
    QRImage.decode (make_qr LANDING_URL) = LANDING_URL
    ∧ qr_img = Flowable.image (ImageSrc.qr (make_qr LANDING_URL)) 28 28
    ∧ ∀ (h : Option String) (fe : String → Bool), (rightCells h fe).head? = some [qr_img] := by
  refine ⟨rfl, rfl, ?_⟩
  intro h fe
  cases hc : truthy h && fe (h.getD "") <;> simp [rightCells, hc]

/-- C8: the two-column block is a single-row, two-cell table whose cells
are the independently overflow-protected (`KeepInFrame`) technical /
education and languages / providers stacks, and whose effective style gives
every cell zero left padding and a fixed 12-point right padding. -/
theorem c8_two_col_structure (d : CVData) :
    two_col d =
      Flowable.table
        [[Flowable.keepInFrame 0 0 (left_col d) "LEFT",
          Flowable.keepInFrame 0 0 (right_col d) "LEFT"]]
        [none, none] twoColStyle
    ∧ lastCmd twoColStyle "LEFTPADDING" 2 1 0 0 = some (TSVal.num 0)
    ∧ lastCmd twoColStyle "LEFTPADDING" 2 1 1 0 = some (TSVal.num 0)
    ∧ lastCmd twoColStyle "RIGHTPADDING" 2 1 0 0 = some (TSVal.num 12)
    ∧ lastCmd twoColStyle "RIGHTPADDING" 2 1 1 0 = some (TSVal.num 12) := by
  refine ⟨rfl, ?_, ?_, ?_, ?_⟩ <;> decide

/-- C9: the generation run never modifies the record: threading the record
state through every phase returns it unchanged, while emitting exactly the
block list of the assembler. -/
theorem c9_record_unchanged (d : CVData) (h : Option String) (fe : String → Bool) :
    (build_run d h fe).1 = d ∧ (build_run d h fe).2 = build_story d h fe := by
  constructor
  · rfl
  · simp [build_run, headerPhase, summaryPhase, experiencePhase, twoColPhase, notePhase,
      build_story, expLoop_eq, List.append_assoc]

/-- C10: when email, phone and location are all present, the contact line
starts with the email rendered as a clickable span targeting its `mailto:`
URL, followed by the phone and location as the bare field strings (plain
text), followed by the link spans. -/
theorem c10_email_mailto_link (d : CVData) (e p l : String)
    (he : d.email = some e) (he2 : e.isEmpty = false)
    (hp : d.phone = some p) (hp2 : p.isEmpty = false)
    (hl : d.location = some l) (hl2 : l.isEmpty = false) :
    contactParts d =
      ("<link href=\"mailto:" ++ e ++ "\">" ++ e ++ "</link>") :: p :: l ::
        (d.links.filter (fun lu => !lu.2.isEmpty)).map (fun lu => linkSpan lu.1 lu.2) := by
  simp [contactParts, linkLoop_eq, truthy, mailtoSpan, he, hp, hl, he2, hp2, hl2]

/-- C10, instantiated on the concrete `DATA` record. -/
theorem c10_witness :
    contactParts DATA =
      ("<link href=\"mailto:apschram@gmail.com\">apschram@gmail.com</link>")
        :: "+31 6 52 36 73 57" :: "Amsterdam, NL" ::
        (DATA.links.filter (fun lu => !lu.2.isEmpty)).map (fun lu => linkSpan lu.1 lu.2) :=
  c10_email_mailto_link DATA "apschram@gmail.com" "+31 6 52 36 73 57" "Amsterdam, NL"
    rfl (by decide) rfl (by decide) rfl (by decide)

end BuildCV
